import Mathlib

/-!
Shallow embedding of the learn-hub e-learning backend (Django/DRF) and proofs
about its enrollment, rating, live-class and material subsystems.

Conventions of the embedding:
* database tables are Lean lists of structure values (rows);
* each handler becomes a pure function from a state to a result tag plus the
  successor state; a failing handler returns the unchanged state, mirroring
  the fact that every early `return Response(...)` in the views happens before
  any write;
* `request.user` is reduced to the fields the handlers read: a numeric id and
  the `is_authenticated` / `is_teacher` flags;
* `timezone.now()` is passed in as an explicit natural-number timestamp.
-/

namespace LearnHub

/-- The slice of the Django `User` visible to the handlers under study:
`request.user.id`, `request.user.is_authenticated`, `request.user.is_teacher`
(src/users/permissions.py and the views). -/
structure Caller where
  id : Nat
  is_authenticated : Bool
  is_teacher : Bool
  deriving DecidableEq, Repr

/-- The fields of `courses.models.Course` read or written by the handlers under
study (src/courses/models.py, lines 26-92).  `average_rating` is a
`DecimalField`, embedded as a rational. -/
structure Course where
  teacher : Nat
  status : String
  max_students : Nat
  current_students : Nat
  average_rating : Rat
  total_ratings : Nat
  deriving DecidableEq, Repr

/-- `Course.is_full` (src/courses/models.py, lines 84-87):
`current_students >= max_students`. -/
def Course.is_full (c : Course) : Bool :=
  c.max_students ≤ c.current_students

/-- A `courses.models.CourseEnrollment` row for a fixed course
(src/courses/models.py, lines 95-110): the student key and the `is_active`
flag.  The table has `unique_together = [student, course]`. -/
structure Enrollment where
  student : Nat
  is_active : Bool
  deriving DecidableEq, Repr

/-- A `courses.models.CourseRating` row for a fixed course
(src/courses/models.py, lines 116-134): the student key, the 1-5 rating and
the review text.  The table has `unique_together = [student, course]`. -/
structure RatingRow where
  student : Nat
  rating : Nat
  review : String
  deriving DecidableEq, Repr

/-- The persistent state touched by the course handlers: one course row plus
its `CourseEnrollment` and `CourseRating` rows (rows of other courses are
never read or written by the handlers under study). -/
structure CourseState where
  course : Course
  enrollments : List Enrollment
  ratings : List RatingRow
  deriving DecidableEq, Repr

/-- `CourseEnrollment.objects.filter(student=.., course=.., is_active=True).exists()`
(src/courses/views.py, line 115 and elsewhere). -/
def activeEnrollmentExists (rows : List Enrollment) (s : Nat) : Bool :=
  rows.any (fun e => e.student == s && e.is_active)

/-- Number of `CourseEnrollment` rows of the course with `is_active=true`. -/
def countActive (rows : List Enrollment) : Nat :=
  (rows.filter (fun e => e.is_active)).length

/-- Outcome of `enroll_course` (src/courses/views.py, lines 99-126). -/
inductive EnrollResult where
  | notFound
  | full
  | alreadyEnrolled
  | uniqueViolation
  | created
  deriving DecidableEq, Repr

/-- `enroll_course` (src/courses/views.py, lines 99-126).
The handler looks the course up with `status='published'` (404 otherwise),
returns 400 when `course.is_full`, 400 when an active enrollment exists, and
otherwise runs `CourseEnrollment.objects.create(...)` followed by
`current_students += 1`.  Because `CourseEnrollment` carries
`unique_together = [student, course]` (src/courses/models.py, line 110), the
`create` call raises an unhandled `IntegrityError` whenever any row — in
particular an inactive one left by `unenroll_course` — already exists for the
pair; the insert fails before the counter increment, so the state is
unchanged.  That aborted path is the `uniqueViolation` outcome. -/
def enroll_course (st : CourseState) (s : Nat) : EnrollResult × CourseState :=
  if st.course.status ≠ "published" then (.notFound, st)
  else if st.course.is_full then (.full, st)
  else if activeEnrollmentExists st.enrollments s then (.alreadyEnrolled, st)
  else if st.enrollments.any (fun e => e.student == s) then (.uniqueViolation, st)
  else (.created,
    { st with
      enrollments := st.enrollments ++ [⟨s, true⟩]
      course := { st.course with current_students := st.course.current_students + 1 } })

/-- Outcome of `unenroll_course` (src/courses/views.py, lines 129-154). -/
inductive UnenrollResult where
  | notFound
  | ok
  deriving DecidableEq, Repr

/-- Flip `is_active` to false on the first active row of the student: the row
fetched by `CourseEnrollment.objects.get(student=.., course_id=.., is_active=True)`
and saved with `is_active = False` (src/courses/views.py, lines 137-147).
By the table's uniqueness constraint there is at most one row per student. -/
def deactivateFirst : List Enrollment → Nat → List Enrollment
  | [], _ => []
  | e :: rest, s =>
    if e.student == s && e.is_active then { e with is_active := false } :: rest
    else e :: deactivateFirst rest s

/-- `unenroll_course` (src/courses/views.py, lines 129-154): 404 when no
active enrollment exists for the caller, otherwise set `is_active=False` and
run `current_students = max(0, current_students - 1)` (natural-number
subtraction models the floor at 0). -/
def unenroll_course (st : CourseState) (s : Nat) : UnenrollResult × CourseState :=
  match st.enrollments.find? (fun e => e.student == s && e.is_active) with
  | none => (.notFound, st)
  | some _ => (.ok,
    { st with
      enrollments := deactivateFirst st.enrollments s
      course := { st.course with current_students := st.course.current_students - 1 } })

/-- A sequential enrollment-side operation on one course: the two handlers
`enroll_course` and `unenroll_course` invoked by some student. -/
inductive EnrollOp where
  | enroll (s : Nat)
  | unenroll (s : Nat)
  deriving DecidableEq, Repr

/-- Apply one operation, keeping only the successor state (a failing handler
leaves the state unchanged). -/
def applyEnrollOp (st : CourseState) : EnrollOp → CourseState
  | .enroll s => (enroll_course st s).2
  | .unenroll s => (unenroll_course st s).2

/-- Run a sequence of enroll/unenroll operations from an initial state. -/
def runEnrollOps (st : CourseState) (ops : List EnrollOp) : CourseState :=
  ops.foldl applyEnrollOp st

/-- The lookup half of `CourseRating.objects.get_or_create(student=.., course=..)`
(src/courses/views.py, lines 186-190): the rating row of the given student for
the fixed course, unique by `unique_together = [student, course]`. -/
def findRating (rows : List RatingRow) (s : Nat) : Option RatingRow :=
  rows.find? (fun r => r.student == s)

/-- The update branch of `rate_course` (src/courses/views.py, lines 192-196):
the fetched row is saved with
`rating = request.data.get('rating', rating.rating)` and
`review = request.data.get('review', rating.review)`; an absent payload field
keeps the stored value.  Only the (unique) row of the student changes. -/
def updateFirstRating : List RatingRow → Nat → Option Nat → Option String → List RatingRow
  | [], _, _, _ => []
  | r :: rest, s, pr, pv =>
    if r.student == s then
      { r with rating := pr.getD r.rating, review := pv.getD r.review } :: rest
    else r :: updateFirstRating rest s pr pv

/-- `sum(r.rating for r in ratings)` (src/courses/views.py, line 201). -/
def sumRatings (rows : List RatingRow) : Nat :=
  (rows.map (fun r => r.rating)).sum

/-- The arithmetic mean `sum(r.rating for r in ratings) / len(ratings)`
(src/courses/views.py, line 201), as an exact rational. -/
def meanRatings (rows : List RatingRow) : Rat :=
  (sumRatings rows : Rat) / (rows.length : Rat)

/-- The aggregate refresh at the end of `rate_course`
(src/courses/views.py, lines 199-203): when the course has at least one
rating row (`if ratings:`), persist the mean as `average_rating` and the row
count as `total_ratings`. -/
def recomputeCourseRating (st : CourseState) : CourseState :=
  if st.ratings.isEmpty then st
  else
    { st with course :=
      { st.course with
          average_rating := meanRatings st.ratings
          total_ratings := st.ratings.length } }

/-- Outcome of `rate_course` (src/courses/views.py, lines 169-206).
`created` is the HTTP 201 response, `updated` the HTTP 200 response.
`nullViolation` is the aborted insert when the payload carries no rating at
all (the NOT NULL column receives `request.data.get('rating') = None`). -/
inductive RateResult where
  | notEnrolled
  | nullViolation
  | created
  | updated
  deriving DecidableEq, Repr

/-- `rate_course` (src/courses/views.py, lines 169-206) for an existing
course (an absent course id returns 404 before any of this logic runs):
400 unless the caller holds an active enrollment; then
`get_or_create(student=.., course=.., defaults={rating, review})` either
updates the existing row in place or inserts a new one, and the course's
aggregate fields are recomputed from all rating rows. -/
def rate_course (st : CourseState) (s : Nat) (pr : Option Nat) (pv : Option String) :
    RateResult × CourseState :=
  if ¬ activeEnrollmentExists st.enrollments s then (.notEnrolled, st)
  else
    match findRating st.ratings s with
    | some _ =>
      (.updated, recomputeCourseRating
        { st with ratings := updateFirstRating st.ratings s pr pv })
    | none =>
      match pr with
      | none => (.nullViolation, st)
      | some r =>
        (.created, recomputeCourseRating
          { st with ratings := st.ratings ++ [⟨s, r, pv.getD ""⟩] })

/-- Number of `CourseRating` rows of the given student for the fixed course. -/
def countRatingRows (rows : List RatingRow) (s : Nat) : Nat :=
  (rows.filter (fun r => r.student == s)).length

/-- `rest_framework.permissions.SAFE_METHODS`: GET, HEAD, OPTIONS. -/
def SAFE_METHODS : List String := ["GET", "HEAD", "OPTIONS"]

/-- `IsTeacherOrReadOnly.has_permission` (src/users/permissions.py,
lines 49-61): safe methods require only authentication; writes require the
caller's `is_teacher` flag.  The class defines no `has_object_permission`,
so the inherited default (always true) applies at the object level. -/
def isTeacherOrReadOnly (u : Caller) (method : String) : Bool :=
  if SAFE_METHODS.contains method then u.is_authenticated
  else u.is_authenticated && u.is_teacher

/-- The permission gate of `CourseDetailView` (src/courses/views.py,
lines 72-84): `permission_classes = [IsAuthenticated, IsTeacherOrReadOnly]`
over `queryset = Course.objects.all()` — neither the permission nor the
queryset consults the course's owning teacher. -/
def courseDetailPermission (u : Caller) (method : String) : Bool :=
  u.is_authenticated && isTeacherOrReadOnly u method

/-- `CourseListView.get_queryset` (src/courses/views.py, lines 64-69):
start from all courses; keep only `status='published'` rows when the caller
is not a teacher.  No owner filter is applied for teachers. -/
def course_list_queryset (u : Caller) (courses : List Course) : List Course :=
  if u.is_teacher then courses
  else courses.filter (fun c => c.status == "published")

/-- The fields of `live_classes.models.LiveClass` read or written by the
handlers under study (src/live_classes/models.py, lines 8-91). -/
structure LiveClass where
  teacher : Nat
  status : String
  max_participants : Nat
  current_participants : Nat
  started_at : Option Nat
  ended_at : Option Nat
  deriving DecidableEq, Repr

/-- `LiveClass.is_full` (src/live_classes/models.py, lines 83-86):
`current_participants >= max_participants`. -/
def LiveClass.is_full (lc : LiveClass) : Bool :=
  lc.max_participants ≤ lc.current_participants

/-- Outcome of `start_live_class` / `end_live_class`
(src/live_classes/views.py, lines 92-135). -/
inductive StartEndResult where
  | forbidden
  | notFound
  | wrongStatus
  | ok
  deriving DecidableEq, Repr

/-- `start_live_class` (src/live_classes/views.py, lines 92-112): the
decorators `[IsAuthenticated, IsTeacher]` reject non-teachers (403); the
lookup `LiveClass.objects.get(id=.., teacher=request.user)` yields 404
unless the caller owns the class; a status other than `scheduled` yields a
400; on success status becomes `live` and `started_at` is stamped. -/
def start_live_class (u : Caller) (lc : LiveClass) (now : Nat) :
    StartEndResult × LiveClass :=
  if ¬ (u.is_authenticated && u.is_teacher) then (.forbidden, lc)
  else if lc.teacher ≠ u.id then (.notFound, lc)
  else if lc.status ≠ "scheduled" then (.wrongStatus, lc)
  else (.ok, { lc with status := "live", started_at := some now })

/-- `end_live_class` (src/live_classes/views.py, lines 115-135): same gates,
requires status exactly `live`, and on success sets status `ended` and
stamps `ended_at`. -/
def end_live_class (u : Caller) (lc : LiveClass) (now : Nat) :
    StartEndResult × LiveClass :=
  if ¬ (u.is_authenticated && u.is_teacher) then (.forbidden, lc)
  else if lc.teacher ≠ u.id then (.notFound, lc)
  else if lc.status ≠ "live" then (.wrongStatus, lc)
  else (.ok, { lc with status := "ended", ended_at := some now })

/-- A `live_classes.models.LiveClassParticipant` row for a fixed live class
(src/live_classes/models.py, lines 94-120): student key and status.  The
pair (student, live_class) is unique. -/
structure Participant where
  student : Nat
  status : String
  deriving DecidableEq, Repr

/-- The persistent state touched by join/leave: the live class row, the
enrollment rows of its parent course, and its participant rows. -/
structure LiveClassState where
  liveClass : LiveClass
  enrollments : List Enrollment
  participants : List Participant
  deriving DecidableEq, Repr

/-- `live_class.participants.filter(status__in=['registered', 'approved', 'attended']).count()`
(src/live_classes/views.py, lines 174 and 201). -/
def countCurrentParticipants (rows : List Participant) : Nat :=
  (rows.filter (fun p =>
    p.status == "registered" || p.status == "approved" || p.status == "attended")).length

/-- Outcome of `join_live_class` (src/live_classes/views.py, lines 138-178).
`created` is the HTTP 201 response, `ok` the HTTP 200 response. -/
inductive JoinResult where
  | notFound
  | notEnrolled
  | full
  | created
  | ok
  deriving DecidableEq, Repr

/-- Reset the participation row of the student to `registered`: the
`participation.status = 'registered'; participation.save()` branch of
`join_live_class` (src/live_classes/views.py, lines 169-171).  The row is
unique per (student, live_class). -/
def resetFirstParticipant : List Participant → Nat → List Participant
  | [], _ => []
  | p :: rest, s =>
    if p.student == s then { p with status := "registered" } :: rest
    else p :: resetFirstParticipant rest s

/-- `join_live_class` (src/live_classes/views.py, lines 138-178) for a found
session: 403 unless the caller holds an active enrollment in the parent
course; 400 when `live_class.is_full`; otherwise
`get_or_create(student=.., live_class=.., defaults={status: 'registered'})`,
with an existing `cancelled` participation reset back to `registered` and
any other existing participation left untouched; finally
`current_participants` is recomputed as the count of rows whose status is
registered, approved or attended. -/
def join_live_class (st : LiveClassState) (s : Nat) : JoinResult × LiveClassState :=
  if ¬ activeEnrollmentExists st.enrollments s then (.notEnrolled, st)
  else if st.liveClass.is_full then (.full, st)
  else
    match st.participants.find? (fun p => p.student == s) with
    | none =>
      let parts := st.participants ++ [⟨s, "registered"⟩]
      (.created,
        { st with
          participants := parts
          liveClass := { st.liveClass with
            current_participants := countCurrentParticipants parts } })
    | some p =>
      let parts :=
        if p.status == "cancelled" then resetFirstParticipant st.participants s
        else st.participants
      (.ok,
        { st with
          participants := parts
          liveClass := { st.liveClass with
            current_participants := countCurrentParticipants parts } })

/-- `join_live_class` including the session lookup: an absent session id is
the 404 branch (src/live_classes/views.py, lines 145-148). -/
def join_live_class_request (sess : Option LiveClassState) (s : Nat) :
    JoinResult × Option LiveClassState :=
  match sess with
  | none => (.notFound, none)
  | some st =>
    let r := join_live_class st s
    (r.1, some r.2)

/-- Outcome of `leave_live_class` (src/live_classes/views.py, lines 181-204). -/
inductive LeaveResult where
  | notFound
  | ok
  deriving DecidableEq, Repr

/-- Set the participation row of the student to `cancelled`
(src/live_classes/views.py, lines 196-197). -/
def cancelFirstParticipant : List Participant → Nat → List Participant
  | [], _ => []
  | p :: rest, s =>
    if p.student == s then { p with status := "cancelled" } :: rest
    else p :: cancelFirstParticipant rest s

/-- `leave_live_class` (src/live_classes/views.py, lines 181-204): 404 when
the caller has no participation row of any status; otherwise the row is set
to `cancelled` and `current_participants` recomputed the same way as in
join. -/
def leave_live_class (st : LiveClassState) (s : Nat) : LeaveResult × LiveClassState :=
  match st.participants.find? (fun p => p.student == s) with
  | none => (.notFound, st)
  | some _ =>
    let parts := cancelFirstParticipant st.participants s
    (.ok,
      { st with
        participants := parts
        liveClass := { st.liveClass with
          current_participants := countCurrentParticipants parts } })

/-- A concrete live-class state used by witnesses: class of teacher 1 with
capacity 10 and occupancy 1, student 2 actively enrolled in the parent
course, and one participation row for student 2 with the given status. -/
def sampleJoinState (pstatus : String) : LiveClassState :=
  ⟨⟨1, "scheduled", 10, 1, none, none⟩, [⟨2, true⟩], [⟨2, pstatus⟩]⟩

/-- The fields of `materials.models.Material` read or written by the
handlers under study (src/materials/models.py, lines 8-84). -/
structure Material where
  teacher : Nat
  is_public : Bool
  is_downloadable : Bool
  download_count : Nat
  view_count : Nat
  deriving DecidableEq, Repr

/-- A `materials.models.MaterialAccess` row for a fixed material
(src/materials/models.py, lines 87-106): student key and action
(view or download). -/
structure MaterialAccessRow where
  student : Nat
  action : String
  deriving DecidableEq, Repr

/-- The persistent state touched by download/view: the material row, the
enrollment rows of its course, and its access-log rows. -/
structure MaterialState where
  material : Material
  enrollments : List Enrollment
  accesses : List MaterialAccessRow
  deriving DecidableEq, Repr

/-- The access gate shared by `download_material` and `view_material`
(src/materials/views.py, lines 137-143 and 178-184): pass when
`request.user.is_teacher and material.teacher == request.user`, otherwise
require an active enrollment in the material's course. -/
def canAccessMaterial (u : Caller) (st : MaterialState) : Bool :=
  (u.is_teacher && st.material.teacher == u.id)
    || activeEnrollmentExists st.enrollments u.id

/-- Outcome of `download_material` / `view_material`
(src/materials/views.py, lines 120-197).  Both failures are HTTP 403. -/
inductive MaterialResult where
  | notDownloadable
  | accessDenied
  | ok
  deriving DecidableEq, Repr

/-- `download_material` (src/materials/views.py, lines 120-162) for a found
material: 403 when `is_downloadable` is false; 403 unless the access gate
passes; on success append one MaterialAccess(action=download) row and
increment `download_count`.  The file streaming that follows the two writes
is outside the data model. -/
def download_material (u : Caller) (st : MaterialState) : MaterialResult × MaterialState :=
  if st.material.is_downloadable = false then (.notDownloadable, st)
  else if ¬ canAccessMaterial u st then (.accessDenied, st)
  else (.ok,
    { st with
      accesses := st.accesses ++ [⟨u.id, "download"⟩]
      material := { st.material with
        download_count := st.material.download_count + 1 } })

/-- `view_material` (src/materials/views.py, lines 165-197) for a found
material: the same access gate with no `is_public` or `is_downloadable`
check; on success append one MaterialAccess(action=view) row and increment
`view_count`. -/
def view_material (u : Caller) (st : MaterialState) : MaterialResult × MaterialState :=
  if ¬ canAccessMaterial u st then (.accessDenied, st)
  else (.ok,
    { st with
      accesses := st.accesses ++ [⟨u.id, "view"⟩]
      material := { st.material with
        view_count := st.material.view_count + 1 } })

/-- A concrete material state used by the C9 witness: material owned by
teacher 1, not public, downloadable, zero counters; student 3 actively
enrolled; empty access log. -/
def sampleMaterialState : MaterialState :=
  ⟨⟨1, false, true, 0, 0⟩, [⟨3, true⟩], []⟩

end LearnHub

namespace LearnHub

/-! ## Supporting lemmas -/

theorem countActive_append_active (rows : List Enrollment) (s : Nat) :
    countActive (rows ++ [⟨s, true⟩]) = countActive rows + 1 := by
  simp [countActive, List.filter_append]

theorem countActive_deactivateFirst (rows : List Enrollment) (s : Nat) (e : Enrollment)
    (h : rows.find? (fun e => e.student == s && e.is_active) = some e) :
    countActive (deactivateFirst rows s) + 1 = countActive rows := by
  induction rows with
  | nil => simp at h
  | cons a rest ih =>
    by_cases hb : (a.student == s && a.is_active) = true
    · have hact : a.is_active = true := ((Bool.and_eq_true _ _).mp hb).2
      simp only [deactivateFirst, if_pos hb]
      simp [countActive, List.filter_cons, hact]
    · rw [List.find?_cons_of_neg _ (by simpa using hb)] at h
      have hrec := ih h
      simp only [deactivateFirst, if_neg hb]
      rcases hact : a.is_active with _ | _
      · simp only [countActive, List.filter_cons, hact, Bool.false_eq_true,
          if_false] at hrec ⊢
        omega
      · simp only [countActive, List.filter_cons, hact, if_true,
          List.length_cons] at hrec ⊢
        omega

/-- One step of the C1 invariant: every single enroll or unenroll operation
preserves agreement between `current_students` and the active-row count. -/
theorem applyEnrollOp_preserves_counter (st : CourseState) (op : EnrollOp)
    (h : st.course.current_students = countActive st.enrollments) :
    (applyEnrollOp st op).course.current_students
      = countActive (applyEnrollOp st op).enrollments := by
  cases op with
  | enroll s =>
    simp only [applyEnrollOp, enroll_course]
    by_cases h1 : st.course.status ≠ "published"
    · simp [h1, h]
    · simp only [h1, if_false]
      by_cases h2 : st.course.is_full = true
      · simp [h2, h]
      · simp only [h2, Bool.false_eq_true, if_false]
        by_cases h3 : activeEnrollmentExists st.enrollments s = true
        · simp [h3, h]
        · simp only [h3, Bool.false_eq_true, if_false]
          by_cases h4 : (st.enrollments.any fun e => e.student == s) = true
          · simp [h4, h]
          · simp [h4, countActive_append_active, h]
  | unenroll s =>
    simp only [applyEnrollOp, unenroll_course]
    rcases hf : st.enrollments.find? (fun e => e.student == s && e.is_active) with _ | e
    · rw [hf]
      exact h
    · rw [hf]
      have hc := countActive_deactivateFirst st.enrollments s e hf
      show st.course.current_students - 1 = countActive (deactivateFirst st.enrollments s)
      omega

theorem recomputeCourseRating_enrollments (x : CourseState) :
    (recomputeCourseRating x).enrollments = x.enrollments := by
  simp only [recomputeCourseRating]
  split <;> rfl

theorem recomputeCourseRating_ratings (x : CourseState) :
    (recomputeCourseRating x).ratings = x.ratings := by
  simp only [recomputeCourseRating]
  split <;> rfl

theorem recomputeCourseRating_aggregates (x : CourseState) (hne : x.ratings ≠ []) :
    (recomputeCourseRating x).course.average_rating = meanRatings x.ratings
  ∧ (recomputeCourseRating x).course.total_ratings = x.ratings.length := by
  have hb : x.ratings.isEmpty = false := by
    rcases hi : x.ratings.isEmpty with _ | _
    · rfl
    · exact absurd (List.isEmpty_iff.mp hi) hne
  simp [recomputeCourseRating, hb]

theorem updateFirstRating_length (rows : List RatingRow) (s : Nat)
    (pr : Option Nat) (pv : Option String) :
    (updateFirstRating rows s pr pv).length = rows.length := by
  induction rows with
  | nil => rfl
  | cons a rest ih =>
    by_cases hb : (a.student == s) = true
    · simp [updateFirstRating, hb]
    · simp [updateFirstRating, hb, ih]

theorem countRatingRows_updateFirstRating (rows : List RatingRow) (s : Nat)
    (pr : Option Nat) (pv : Option String) :
    countRatingRows (updateFirstRating rows s pr pv) s = countRatingRows rows s := by
  induction rows with
  | nil => rfl
  | cons a rest ih =>
    by_cases hb : (a.student == s) = true
    · simp [updateFirstRating, hb, countRatingRows, List.filter_cons]
    · simp only [updateFirstRating, if_neg hb, countRatingRows, List.filter_cons, hb,
        Bool.false_eq_true, if_false]
      exact ih

theorem countRatingRows_append_self (rows : List RatingRow) (s : Nat) (row : RatingRow)
    (hrow : (row.student == s) = true) :
    countRatingRows (rows ++ [row]) s = countRatingRows rows s + 1 := by
  simp [countRatingRows, List.filter_append, List.filter_cons, hrow]

theorem countRatingRows_of_findRating_none (rows : List RatingRow) (s : Nat)
    (h : findRating rows s = none) :
    countRatingRows rows s = 0 := by
  simp only [findRating, List.find?_eq_none] at h
  simp only [countRatingRows]
  rw [List.filter_eq_nil_iff.mpr h]
  rfl

theorem findRating_append_self (rows : List RatingRow) (s r1 : Nat) (v1 : String)
    (h : findRating rows s = none) :
    findRating (rows ++ [⟨s, r1, v1⟩]) s = some ⟨s, r1, v1⟩ := by
  simp only [findRating] at h
  simp [findRating, List.find?_append, h, List.find?]

theorem resetFirstParticipant_length (rows : List Participant) (s : Nat) :
    (resetFirstParticipant rows s).length = rows.length := by
  induction rows with
  | nil => rfl
  | cons a rest ih =>
    by_cases hb : (a.student == s) = true
    · simp [resetFirstParticipant, hb]
    · simp [resetFirstParticipant, hb, ih]

theorem start_live_class_ok_iff (u : Caller) (lc : LiveClass) (t : Nat) :
    (start_live_class u lc t).1 = StartEndResult.ok
      ↔ ((u.is_authenticated && u.is_teacher) = true ∧ lc.teacher = u.id
          ∧ lc.status = "scheduled") := by
  unfold start_live_class
  split_ifs with h1 h2 h3
  · exact iff_of_false id (fun hc => absurd hc.2.1 h2)
  · exact iff_of_false id (fun hc => absurd hc.2.2 h3)
  · exact iff_of_true rfl ⟨h1, not_not.mp h2, not_not.mp h3⟩
  · exact iff_of_false id (fun hc => absurd hc.1 h1)

theorem start_live_class_ok_state (u : Caller) (lc : LiveClass) (t : Nat)
    (h : (start_live_class u lc t).1 = StartEndResult.ok) :
    (start_live_class u lc t).2 = { lc with status := "live", started_at := some t } := by
  unfold start_live_class at h ⊢
  split_ifs at h ⊢
  simp_all

theorem end_live_class_ok_iff (u : Caller) (lc : LiveClass) (t : Nat) :
    (end_live_class u lc t).1 = StartEndResult.ok
      ↔ ((u.is_authenticated && u.is_teacher) = true ∧ lc.teacher = u.id
          ∧ lc.status = "live") := by
  unfold end_live_class
  split_ifs with h1 h2 h3
  · exact iff_of_false id (fun hc => absurd hc.2.1 h2)
  · exact iff_of_false id (fun hc => absurd hc.2.2 h3)
  · exact iff_of_true rfl ⟨h1, not_not.mp h2, not_not.mp h3⟩
  · exact iff_of_false id (fun hc => absurd hc.1 h1)

theorem end_live_class_ok_state (u : Caller) (lc : LiveClass) (t : Nat)
    (h : (end_live_class u lc t).1 = StartEndResult.ok) :
    (end_live_class u lc t).2 = { lc with status := "ended", ended_at := some t } := by
  unfold end_live_class at h ⊢
  split_ifs at h ⊢
  simp_all

/-! ## Claim theorems -/

/-- Claim C1: for every course, starting from a state in which
`current_students` equals the number of `CourseEnrollment` rows for that
course with `is_active=true`, after any sequential sequence of enroll and
unenroll operations `current_students` still equals the count of that
course's rows with `is_active=true`. -/
theorem enroll_unenroll_counter_invariant (st : CourseState) (ops : List EnrollOp)
    (h : st.course.current_students = countActive st.enrollments) :
    (runEnrollOps st ops).course.current_students
      = countActive (runEnrollOps st ops).enrollments := by
  induction ops generalizing st with
  | nil => exact h
  | cons op rest ih => exact ih _ (applyEnrollOp_preserves_counter st op h)

/-- Witness for C1: a freshly created published course (both counter and
active-row count are 0) run through the sequence
enroll 7, enroll 8, unenroll 7, enroll 9. -/
theorem enroll_unenroll_counter_invariant_witness :
    (⟨⟨1, "published", 50, 0, 0, 0⟩, [], []⟩ : CourseState).course.current_students
      = countActive (⟨⟨1, "published", 50, 0, 0, 0⟩, [], []⟩ : CourseState).enrollments
  ∧ (runEnrollOps ⟨⟨1, "published", 50, 0, 0, 0⟩, [], []⟩
        [.enroll 7, .enroll 8, .unenroll 7, .enroll 9]).course.current_students
      = countActive (runEnrollOps ⟨⟨1, "published", 50, 0, 0, 0⟩, [], []⟩
        [.enroll 7, .enroll 8, .unenroll 7, .enroll 9]).enrollments :=
  ⟨by decide, enroll_unenroll_counter_invariant _ _ (by decide)⟩

/-- Claim C2 (code bug evidence): a student who unenrolled keeps an inactive
`CourseEnrollment` row, and a later `enroll_course` call on the published,
non-full course — with no active enrollment present — does not reactivate
that row: `CourseEnrollment.objects.create` trips the
`unique_together = [student, course]` constraint and the request aborts with
an `IntegrityError` (no new row, no counter change, no 201). -/
theorem enroll_after_unenroll_integrity_error :
    activeEnrollmentExists [⟨7, false⟩] 7 = false
  ∧ (⟨⟨1, "published", 50, 0, 0, 0⟩, [⟨7, false⟩], []⟩ : CourseState).course.is_full = false
  ∧ enroll_course ⟨⟨1, "published", 50, 0, 0, 0⟩, [⟨7, false⟩], []⟩ 7
      = (.uniqueViolation, ⟨⟨1, "published", 50, 0, 0, 0⟩, [⟨7, false⟩], []⟩) := by
  refine ⟨by decide, by decide, ?_⟩
  decide

/-- Counterexample to claim C3 as stated: an authenticated teacher (id 2)
who does not own the course (owned by teacher 1) passes the full
update/delete permission gate of CourseDetailView — non-owners are not
rejected. -/
theorem course_update_by_non_owner_allowed :
    (⟨2, true, true⟩ : Caller).id ≠ (⟨1, "published", 50, 0, 0, 0⟩ : Course).teacher
  ∧ courseDetailPermission ⟨2, true, true⟩ "PUT" = true
  ∧ courseDetailPermission ⟨2, true, true⟩ "PATCH" = true
  ∧ courseDetailPermission ⟨2, true, true⟩ "DELETE" = true := by
  decide

/-- Claim C3 (amended): the write gate of CourseDetailView checks only the
teacher role, never ownership: update and delete are allowed exactly for
authenticated callers with the teacher flag (any teacher, owner or not),
and read access is allowed to every authenticated caller. -/
theorem course_detail_write_gate (u : Caller) :
    courseDetailPermission u "PUT" = (u.is_authenticated && u.is_teacher)
  ∧ courseDetailPermission u "PATCH" = (u.is_authenticated && u.is_teacher)
  ∧ courseDetailPermission u "DELETE" = (u.is_authenticated && u.is_teacher)
  ∧ courseDetailPermission u "GET" = u.is_authenticated := by
  obtain ⟨i, a, t⟩ := u
  cases a <;> exact ⟨rfl, rfl, rfl, rfl⟩

/-- Counterexample to claim C8 as stated: a teacher (id 1) listing courses
receives a draft course owned by a different teacher (id 2) — the returned
set is all courses, not the teacher's own courses. -/
theorem course_list_teacher_sees_other_courses :
    course_list_queryset ⟨1, true, true⟩ [⟨2, "draft", 50, 0, 0, 0⟩]
      = [⟨2, "draft", 50, 0, 0, 0⟩]
  ∧ (⟨2, "draft", 50, 0, 0, 0⟩ : Course).teacher ≠ 1 := by
  decide

/-- Claim C8 (amended): for a teacher the listing returns every course in
the table, regardless of owner and status; for every non-teacher caller it
returns exactly the courses with status published. -/
theorem course_list_queryset_membership (u : Caller) (courses : List Course)
    (c : Course) :
    c ∈ course_list_queryset u courses
      ↔ c ∈ courses ∧ (u.is_teacher = true ∨ c.status = "published") := by
  unfold course_list_queryset
  rcases ht : u.is_teacher with _ | _
  · simp [ht, List.mem_filter]
  · simp [ht]

/-- Claim C5: for a student with an active enrollment in an existing course
and no prior rating row, rating is an upsert keyed on (student, course): the
first rate creates (HTTP 201), a second rate from the same student updates in
place (HTTP 200), exactly one CourseRating row exists for the pair after the
two writes, and after each successful write the course's average_rating is
the arithmetic mean of all current ratings and total_ratings their count. -/
theorem rate_course_upsert (st : CourseState) (s r1 r2 : Nat) (v1 v2 : String)
    (henr : activeEnrollmentExists st.enrollments s = true)
    (hnew : findRating st.ratings s = none) :
    (rate_course st s (some r1) (some v1)).1 = RateResult.created
  ∧ (rate_course (rate_course st s (some r1) (some v1)).2 s (some r2) (some v2)).1
      = RateResult.updated
  ∧ countRatingRows
      (rate_course (rate_course st s (some r1) (some v1)).2 s (some r2) (some v2)).2.ratings
      s = 1
  ∧ (rate_course st s (some r1) (some v1)).2.course.average_rating
      = meanRatings (rate_course st s (some r1) (some v1)).2.ratings
  ∧ (rate_course st s (some r1) (some v1)).2.course.total_ratings
      = (rate_course st s (some r1) (some v1)).2.ratings.length
  ∧ (rate_course (rate_course st s (some r1) (some v1)).2 s
        (some r2) (some v2)).2.course.average_rating
      = meanRatings
          (rate_course (rate_course st s (some r1) (some v1)).2 s (some r2) (some v2)).2.ratings
  ∧ (rate_course (rate_course st s (some r1) (some v1)).2 s
        (some r2) (some v2)).2.course.total_ratings
      = (rate_course (rate_course st s (some r1) (some v1)).2 s
          (some r2) (some v2)).2.ratings.length := by
  have h1 : rate_course st s (some r1) (some v1)
      = (RateResult.created,
         recomputeCourseRating { st with ratings := st.ratings ++ [⟨s, r1, v1⟩] }) := by
    simp [rate_course, henr, hnew]
  set x1 : CourseState := { st with ratings := st.ratings ++ [⟨s, r1, v1⟩] } with hx1
  have hst1r : (recomputeCourseRating x1).ratings = st.ratings ++ [⟨s, r1, v1⟩] :=
    recomputeCourseRating_ratings x1
  have henr1 : activeEnrollmentExists (recomputeCourseRating x1).enrollments s = true := by
    rw [recomputeCourseRating_enrollments]
    exact henr
  have hfound : findRating (recomputeCourseRating x1).ratings s = some ⟨s, r1, v1⟩ := by
    rw [hst1r]
    exact findRating_append_self st.ratings s r1 v1 hnew
  have h2 : rate_course (recomputeCourseRating x1) s (some r2) (some v2)
      = (RateResult.updated,
         recomputeCourseRating { recomputeCourseRating x1 with
           ratings := updateFirstRating (recomputeCourseRating x1).ratings s
             (some r2) (some v2) }) := by
    simp [rate_course, henr1, hfound]
  set x2 : CourseState := { recomputeCourseRating x1 with
      ratings := updateFirstRating (recomputeCourseRating x1).ratings s
        (some r2) (some v2) } with hx2
  have hne1 : x1.ratings ≠ [] :=
    List.append_ne_nil_of_right_ne_nil _ (List.cons_ne_nil _ _)
  have hne2 : x2.ratings ≠ [] := by
    show updateFirstRating (recomputeCourseRating x1).ratings s (some r2) (some v2) ≠ []
    have hlen : (updateFirstRating (recomputeCourseRating x1).ratings s
        (some r2) (some v2)).length = st.ratings.length + 1 := by
      rw [updateFirstRating_length, hst1r, List.length_append]
      rfl
    intro hc
    rw [hc] at hlen
    simp at hlen
  obtain ⟨hag1, hat1⟩ := recomputeCourseRating_aggregates x1 hne1
  obtain ⟨hag2, hat2⟩ := recomputeCourseRating_aggregates x2 hne2
  have hcount : countRatingRows (recomputeCourseRating x2).ratings s = 1 := by
    rw [recomputeCourseRating_ratings]
    show countRatingRows (updateFirstRating (recomputeCourseRating x1).ratings s
      (some r2) (some v2)) s = 1
    rw [countRatingRows_updateFirstRating, hst1r,
        countRatingRows_append_self _ _ _ (beq_self_eq_true s),
        countRatingRows_of_findRating_none st.ratings s hnew]
  refine ⟨?_, ?_, ?_, ?_, ?_, ?_, ?_⟩
  · rw [h1]
  · rw [h1]; dsimp only; rw [h2]
  · rw [h1]; dsimp only; rw [h2]; dsimp only; exact hcount
  · rw [h1]; dsimp only
    rw [hag1, recomputeCourseRating_ratings]
  · rw [h1]; dsimp only
    rw [hat1, recomputeCourseRating_ratings]
  · rw [h1]; dsimp only; rw [h2]; dsimp only
    rw [hag2, recomputeCourseRating_ratings]
  · rw [h1]; dsimp only; rw [h2]; dsimp only
    rw [hat2, recomputeCourseRating_ratings]

/-- Witness for C5: student 2 is actively enrolled, rates the course 5 then 3. -/
theorem rate_course_upsert_witness :
    activeEnrollmentExists ([⟨2, true⟩] : List Enrollment) 2 = true
  ∧ findRating ([] : List RatingRow) 2 = none
  ∧ ((rate_course ⟨⟨1, "published", 10, 1, 0, 0⟩, [⟨2, true⟩], []⟩ 2
        (some 5) (some "g")).1 = RateResult.created
    ∧ (rate_course (rate_course ⟨⟨1, "published", 10, 1, 0, 0⟩, [⟨2, true⟩], []⟩ 2
        (some 5) (some "g")).2 2 (some 3) (some "m")).1 = RateResult.updated
    ∧ countRatingRows
        (rate_course (rate_course ⟨⟨1, "published", 10, 1, 0, 0⟩, [⟨2, true⟩], []⟩ 2
          (some 5) (some "g")).2 2 (some 3) (some "m")).2.ratings 2 = 1
    ∧ (rate_course ⟨⟨1, "published", 10, 1, 0, 0⟩, [⟨2, true⟩], []⟩ 2
        (some 5) (some "g")).2.course.average_rating
        = meanRatings (rate_course ⟨⟨1, "published", 10, 1, 0, 0⟩, [⟨2, true⟩], []⟩ 2
            (some 5) (some "g")).2.ratings
    ∧ (rate_course ⟨⟨1, "published", 10, 1, 0, 0⟩, [⟨2, true⟩], []⟩ 2
        (some 5) (some "g")).2.course.total_ratings
        = (rate_course ⟨⟨1, "published", 10, 1, 0, 0⟩, [⟨2, true⟩], []⟩ 2
            (some 5) (some "g")).2.ratings.length
    ∧ (rate_course (rate_course ⟨⟨1, "published", 10, 1, 0, 0⟩, [⟨2, true⟩], []⟩ 2
        (some 5) (some "g")).2 2 (some 3) (some "m")).2.course.average_rating
        = meanRatings (rate_course (rate_course ⟨⟨1, "published", 10, 1, 0, 0⟩,
            [⟨2, true⟩], []⟩ 2 (some 5) (some "g")).2 2 (some 3) (some "m")).2.ratings
    ∧ (rate_course (rate_course ⟨⟨1, "published", 10, 1, 0, 0⟩, [⟨2, true⟩], []⟩ 2
        (some 5) (some "g")).2 2 (some 3) (some "m")).2.course.total_ratings
        = (rate_course (rate_course ⟨⟨1, "published", 10, 1, 0, 0⟩, [⟨2, true⟩], []⟩ 2
            (some 5) (some "g")).2 2 (some 3) (some "m")).2.ratings.length) :=
  ⟨by decide, by decide,
    rate_course_upsert ⟨⟨1, "published", 10, 1, 0, 0⟩, [⟨2, true⟩], []⟩ 2 5 3 "g" "m"
      (by decide) (by decide)⟩

/-- Claim C4: enrolling in a published course whose `current_students` equals
`max_students` always fails with the capacity error and performs no write:
the returned state is exactly the input state. -/
theorem enroll_full_course_no_write (st : CourseState) (s : Nat)
    (hpub : st.course.status = "published")
    (hfull : st.course.current_students = st.course.max_students) :
    enroll_course st s = (.full, st) := by
  have hf : st.course.is_full = true := by
    simp [Course.is_full, hfull]
  simp [enroll_course, hpub, hf]

/-- Claim C9: download_material fails Forbidden when is_downloadable is
false, and Forbidden unless the caller is the owning teacher or holds an
active enrollment in the material's course; each successful download appends
exactly one MaterialAccess(download) row and increments download_count by 1.
view_material applies the same gate with no is_public/is_downloadable check,
appending one MaterialAccess(view) row and incrementing view_count by 1. -/
theorem material_access_tracking (u : Caller) (st : MaterialState) :
    (st.material.is_downloadable = false →
      download_material u st = (MaterialResult.notDownloadable, st))
  ∧ (st.material.is_downloadable = true → canAccessMaterial u st = false →
      download_material u st = (MaterialResult.accessDenied, st))
  ∧ (st.material.is_downloadable = true → canAccessMaterial u st = true →
      download_material u st = (MaterialResult.ok,
        { st with
          accesses := st.accesses ++ [⟨u.id, "download"⟩]
          material := { st.material with
            download_count := st.material.download_count + 1 } }))
  ∧ (canAccessMaterial u st = false →
      view_material u st = (MaterialResult.accessDenied, st))
  ∧ (canAccessMaterial u st = true →
      view_material u st = (MaterialResult.ok,
        { st with
          accesses := st.accesses ++ [⟨u.id, "view"⟩]
          material := { st.material with
            view_count := st.material.view_count + 1 } })) := by
  refine ⟨?_, ?_, ?_, ?_, ?_⟩
  · intro h
    simp [download_material, h]
  · intro h1 h2
    simp [download_material, h1, h2]
  · intro h1 h2
    simp [download_material, h1, h2]
  · intro h
    simp [view_material, h]
  · intro h
    simp [view_material, h]

/-- Witness for C9: enrolled student 3 downloads and views the downloadable
material of teacher 1. -/
theorem material_access_tracking_witness :
    ((sampleMaterialState).material.is_downloadable = false →
      download_material ⟨3, true, false⟩ sampleMaterialState
        = (MaterialResult.notDownloadable, sampleMaterialState))
  ∧ ((sampleMaterialState).material.is_downloadable = true →
      canAccessMaterial ⟨3, true, false⟩ sampleMaterialState = false →
      download_material ⟨3, true, false⟩ sampleMaterialState
        = (MaterialResult.accessDenied, sampleMaterialState))
  ∧ ((sampleMaterialState).material.is_downloadable = true →
      canAccessMaterial ⟨3, true, false⟩ sampleMaterialState = true →
      download_material ⟨3, true, false⟩ sampleMaterialState
        = (MaterialResult.ok,
          { sampleMaterialState with
            accesses := sampleMaterialState.accesses
              ++ [⟨(⟨3, true, false⟩ : Caller).id, "download"⟩]
            material := { sampleMaterialState.material with
              download_count := sampleMaterialState.material.download_count + 1 } }))
  ∧ (canAccessMaterial ⟨3, true, false⟩ sampleMaterialState = false →
      view_material ⟨3, true, false⟩ sampleMaterialState
        = (MaterialResult.accessDenied, sampleMaterialState))
  ∧ (canAccessMaterial ⟨3, true, false⟩ sampleMaterialState = true →
      view_material ⟨3, true, false⟩ sampleMaterialState
        = (MaterialResult.ok,
          { sampleMaterialState with
            accesses := sampleMaterialState.accesses
              ++ [⟨(⟨3, true, false⟩ : Caller).id, "view"⟩]
            material := { sampleMaterialState.material with
              view_count := sampleMaterialState.material.view_count + 1 } })) :=
  material_access_tracking ⟨3, true, false⟩ sampleMaterialState

/-- Claim C7: join_live_class fails NotFound when the session is absent,
Forbidden when the caller holds no active enrollment in the parent course,
and 400 when the class is full; a successful repeat join of a cancelled
participation resets it to registered without adding a row; and after every
successful join or leave, current_participants equals the number of
participant rows whose status is registered, approved or attended. -/
theorem join_leave_participant_accounting (st : LiveClassState) (s : Nat)
    (p : Participant) :
    join_live_class_request none s = (JoinResult.notFound, none)
  ∧ (activeEnrollmentExists st.enrollments s = false →
      join_live_class st s = (JoinResult.notEnrolled, st))
  ∧ (activeEnrollmentExists st.enrollments s = true →
      st.liveClass.is_full = true →
      join_live_class st s = (JoinResult.full, st))
  ∧ (activeEnrollmentExists st.enrollments s = true →
      st.liveClass.is_full = false →
      st.participants.find? (fun q => q.student == s) = some p →
      p.status = "cancelled" →
      ((join_live_class st s).1 = JoinResult.ok
        ∧ (join_live_class st s).2.participants
            = resetFirstParticipant st.participants s
        ∧ (join_live_class st s).2.participants.length = st.participants.length))
  ∧ ((join_live_class st s).1 = JoinResult.created
        ∨ (join_live_class st s).1 = JoinResult.ok →
      (join_live_class st s).2.liveClass.current_participants
        = countCurrentParticipants (join_live_class st s).2.participants)
  ∧ ((leave_live_class st s).1 = LeaveResult.ok →
      (leave_live_class st s).2.liveClass.current_participants
        = countCurrentParticipants (leave_live_class st s).2.participants) := by
  refine ⟨rfl, ?_, ?_, ?_, ?_, ?_⟩
  · intro h
    simp [join_live_class, h]
  · intro h1 h2
    simp [join_live_class, h1, h2]
  · intro h1 h2 h3 h4
    have hc : (p.status == "cancelled") = true := by
      rw [h4]
      rfl
    refine ⟨?_, ?_, ?_⟩ <;>
      simp [join_live_class, h1, h2, h3, hc, resetFirstParticipant_length]
  · intro hres
    unfold join_live_class at hres ⊢
    split_ifs at hres ⊢ with h1 h2
    · simp at hres
    · rcases hf : st.participants.find? (fun q => q.student == s) with _ | q
      · rw [hf]
      · rw [hf]
    · simp at hres
  · intro hres
    unfold leave_live_class at hres ⊢
    rcases hf : st.participants.find? (fun q => q.student == s) with _ | q
    · rw [hf] at hres
      simp at hres
    · rw [hf]

/-- Witness for C7: the state with a cancelled participation for student 2. -/
theorem join_leave_participant_accounting_witness :
    join_live_class_request none 2 = (JoinResult.notFound, none)
  ∧ (activeEnrollmentExists (sampleJoinState "cancelled").enrollments 2 = false →
      join_live_class (sampleJoinState "cancelled") 2
        = (JoinResult.notEnrolled, sampleJoinState "cancelled"))
  ∧ (activeEnrollmentExists (sampleJoinState "cancelled").enrollments 2 = true →
      (sampleJoinState "cancelled").liveClass.is_full = true →
      join_live_class (sampleJoinState "cancelled") 2
        = (JoinResult.full, sampleJoinState "cancelled"))
  ∧ (activeEnrollmentExists (sampleJoinState "cancelled").enrollments 2 = true →
      (sampleJoinState "cancelled").liveClass.is_full = false →
      (sampleJoinState "cancelled").participants.find? (fun q => q.student == 2)
          = some ⟨2, "cancelled"⟩ →
      (⟨2, "cancelled"⟩ : Participant).status = "cancelled" →
      ((join_live_class (sampleJoinState "cancelled") 2).1 = JoinResult.ok
        ∧ (join_live_class (sampleJoinState "cancelled") 2).2.participants
            = resetFirstParticipant (sampleJoinState "cancelled").participants 2
        ∧ (join_live_class (sampleJoinState "cancelled") 2).2.participants.length
            = (sampleJoinState "cancelled").participants.length))
  ∧ ((join_live_class (sampleJoinState "cancelled") 2).1 = JoinResult.created
        ∨ (join_live_class (sampleJoinState "cancelled") 2).1 = JoinResult.ok →
      (join_live_class (sampleJoinState "cancelled") 2).2.liveClass.current_participants
        = countCurrentParticipants
            (join_live_class (sampleJoinState "cancelled") 2).2.participants)
  ∧ ((leave_live_class (sampleJoinState "cancelled") 2).1 = LeaveResult.ok →
      (leave_live_class (sampleJoinState "cancelled") 2).2.liveClass.current_participants
        = countCurrentParticipants
            (leave_live_class (sampleJoinState "cancelled") 2).2.participants) :=
  join_leave_participant_accounting (sampleJoinState "cancelled") 2 ⟨2, "cancelled"⟩

/-- Claim C10: an enrolled student repeating join on a non-full class while
holding a participation whose status is registered, approved or attended
gets the 200 response and the participant rows are left exactly as they
were: no second row, no status change. -/
theorem join_repeat_active_noop (st : LiveClassState) (s : Nat) (p : Participant)
    (henr : activeEnrollmentExists st.enrollments s = true)
    (hfull : st.liveClass.is_full = false)
    (hfind : st.participants.find? (fun q => q.student == s) = some p)
    (hstat : p.status = "registered" ∨ p.status = "approved"
      ∨ p.status = "attended") :
    (join_live_class st s).1 = JoinResult.ok
  ∧ (join_live_class st s).2.participants = st.participants := by
  have hc : (p.status == "cancelled") = false := by
    rcases hstat with h | h | h <;> rw [h] <;> rfl
  refine ⟨?_, ?_⟩ <;> simp [join_live_class, henr, hfull, hfind, hc]

/-- Witness for C10: student 2 joins again while already registered. -/
theorem join_repeat_active_noop_witness :
    activeEnrollmentExists (sampleJoinState "registered").enrollments 2 = true
  ∧ (sampleJoinState "registered").liveClass.is_full = false
  ∧ (sampleJoinState "registered").participants.find? (fun q => q.student == 2)
      = some ⟨2, "registered"⟩
  ∧ ((join_live_class (sampleJoinState "registered") 2).1 = JoinResult.ok
      ∧ (join_live_class (sampleJoinState "registered") 2).2.participants
          = (sampleJoinState "registered").participants) :=
  ⟨by decide, by decide, by decide,
    join_repeat_active_noop (sampleJoinState "registered") 2 ⟨2, "registered"⟩
      (by decide) (by decide) (by decide) (Or.inl rfl)⟩

/-- Claim C6: start_live_class succeeds exactly when the caller is an
authenticated teacher who owns the class and the status is exactly
scheduled; on success the status becomes live and started_at is stamped,
and a second start before end fails with the 400 wrong-status error.
Symmetrically end_live_class succeeds exactly when the status is live (same
caller gates); on success the status becomes ended and ended_at is
stamped. -/
theorem live_class_start_end_machine (u : Caller) (lc : LiveClass) (t1 t2 : Nat) :
    ((start_live_class u lc t1).1 = StartEndResult.ok
      ↔ ((u.is_authenticated && u.is_teacher) = true ∧ lc.teacher = u.id
          ∧ lc.status = "scheduled"))
  ∧ ((start_live_class u lc t1).1 = StartEndResult.ok →
      ((start_live_class u lc t1).2.status = "live"
        ∧ (start_live_class u lc t1).2.started_at = some t1
        ∧ (start_live_class u (start_live_class u lc t1).2 t2).1
            = StartEndResult.wrongStatus))
  ∧ ((end_live_class u lc t1).1 = StartEndResult.ok
      ↔ ((u.is_authenticated && u.is_teacher) = true ∧ lc.teacher = u.id
          ∧ lc.status = "live"))
  ∧ ((end_live_class u lc t1).1 = StartEndResult.ok →
      ((end_live_class u lc t1).2.status = "ended"
        ∧ (end_live_class u lc t1).2.ended_at = some t1)) := by
  refine ⟨start_live_class_ok_iff u lc t1, ?_, end_live_class_ok_iff u lc t1, ?_⟩
  · intro hok
    obtain ⟨hau, hown, _⟩ := (start_live_class_ok_iff u lc t1).mp hok
    rw [start_live_class_ok_state u lc t1 hok]
    refine ⟨rfl, rfl, ?_⟩
    unfold start_live_class
    dsimp only
    rw [if_neg (not_not_intro hau), if_neg (not_not_intro hown),
        if_pos (show ("live" : String) ≠ "scheduled" by decide)]
  · intro hok
    rw [end_live_class_ok_state u lc t1 hok]
    exact ⟨rfl, rfl⟩

/-- Witness for C6: teacher 1 starts their scheduled class at time 5 and the
machine behaves as stated (including the failing restart at time 9). -/
theorem live_class_start_end_machine_witness :
    ((start_live_class ⟨1, true, true⟩ ⟨1, "scheduled", 10, 0, none, none⟩ 5).1
        = StartEndResult.ok
      ↔ (((⟨1, true, true⟩ : Caller).is_authenticated
            && (⟨1, true, true⟩ : Caller).is_teacher) = true
          ∧ (⟨1, "scheduled", 10, 0, none, none⟩ : LiveClass).teacher
              = (⟨1, true, true⟩ : Caller).id
          ∧ (⟨1, "scheduled", 10, 0, none, none⟩ : LiveClass).status = "scheduled"))
  ∧ ((start_live_class ⟨1, true, true⟩ ⟨1, "scheduled", 10, 0, none, none⟩ 5).1
        = StartEndResult.ok →
      ((start_live_class ⟨1, true, true⟩ ⟨1, "scheduled", 10, 0, none, none⟩ 5).2.status
          = "live"
        ∧ (start_live_class ⟨1, true, true⟩
            ⟨1, "scheduled", 10, 0, none, none⟩ 5).2.started_at = some 5
        ∧ (start_live_class ⟨1, true, true⟩
            (start_live_class ⟨1, true, true⟩
              ⟨1, "scheduled", 10, 0, none, none⟩ 5).2 9).1
            = StartEndResult.wrongStatus))
  ∧ ((end_live_class ⟨1, true, true⟩ ⟨1, "scheduled", 10, 0, none, none⟩ 5).1
        = StartEndResult.ok
      ↔ (((⟨1, true, true⟩ : Caller).is_authenticated
            && (⟨1, true, true⟩ : Caller).is_teacher) = true
          ∧ (⟨1, "scheduled", 10, 0, none, none⟩ : LiveClass).teacher
              = (⟨1, true, true⟩ : Caller).id
          ∧ (⟨1, "scheduled", 10, 0, none, none⟩ : LiveClass).status = "live"))
  ∧ ((end_live_class ⟨1, true, true⟩ ⟨1, "scheduled", 10, 0, none, none⟩ 5).1
        = StartEndResult.ok →
      ((end_live_class ⟨1, true, true⟩ ⟨1, "scheduled", 10, 0, none, none⟩ 5).2.status
          = "ended"
        ∧ (end_live_class ⟨1, true, true⟩
            ⟨1, "scheduled", 10, 0, none, none⟩ 5).2.ended_at = some 5)) :=
  live_class_start_end_machine ⟨1, true, true⟩ ⟨1, "scheduled", 10, 0, none, none⟩ 5 9

/-- Witness for C4: a published course with 2 of 2 seats taken rejects a new
student and is left unchanged. -/
theorem enroll_full_course_no_write_witness :
    (⟨⟨1, "published", 2, 2, 0, 0⟩, [⟨3, true⟩, ⟨4, true⟩], []⟩ : CourseState).course.status
        = "published"
  ∧ (⟨⟨1, "published", 2, 2, 0, 0⟩, [⟨3, true⟩, ⟨4, true⟩], []⟩ : CourseState).course.current_students
        = (⟨⟨1, "published", 2, 2, 0, 0⟩, [⟨3, true⟩, ⟨4, true⟩], []⟩ : CourseState).course.max_students
  ∧ enroll_course ⟨⟨1, "published", 2, 2, 0, 0⟩, [⟨3, true⟩, ⟨4, true⟩], []⟩ 5
        = (.full, ⟨⟨1, "published", 2, 2, 0, 0⟩, [⟨3, true⟩, ⟨4, true⟩], []⟩) :=
  ⟨rfl, rfl, enroll_full_course_no_write _ 5 rfl rfl⟩

end LearnHub
